import Mathlib

/-!
Verification of the bootstrap sequencer and lifecycle state machine of
`quant/quant.py` (class `Quant`), the lifecycle orchestrator of the
thenextquant framework.

The embedding is a trace semantics: each lifecycle operation of the `Quant`
class is translated into a Lean function that returns the ordered list of
externally visible bootstrap steps it performs, the resulting orchestrator
state, and the error it raises (if any).  External collaborators that live in
repository modules not present under `src/` (`quant/config.py`,
`quant/event.py`, `quant/utils/mongo.py`, `quant/heartbeat.py`) and the
third-party event loop are modelled at their interface boundary; the outcome
of each such collaborator call (configuration load success, database connect
success, event-bus connect success) is an input in an `Env` record.
-/

namespace ThenextQuant

/-- A handle to the process-wide io loop, identified abstractly.
`asyncio.get_event_loop()` always returns the same process loop, so the
environment carries one fixed handle. -/
abbrev LoopHandle := Nat

/-- The `log` configuration section: every key read by `Quant._init_logger`
(`console`, `level`, `path`, `name`, `clear`, `backup_count`), each optional,
mirroring `config.log.get(key, default)`. -/
structure LogSection where
  console : Option Bool
  level : Option String
  path : Option String
  name : Option String
  clear : Option Bool
  backup_count : Option Nat
  deriving Repr, DecidableEq

/-- The `http_server` configuration section: every key read by
`Quant._init_http_server` (`apis`, `middlewares`, `host`, `port`), each
optional, mirroring `config.http_server.get(...)`.  A key that is absent from
the mapping is `none`; `dict.get` with no second argument yields Python
`None`, embedded as `none`. -/
structure HttpSection where
  apis : Option (List String)
  middlewares : Option (List String)
  host : Option String
  port : Option Nat
  deriving Repr, DecidableEq

/-- Modelled from the spec: the loaded configuration object of
`quant/config.py` (not under `src/`).  Per spec §4.2 the activation test for
each optional subsystem is "is the named configuration section present
(non-null)": an absent or null section is `none`.  Section names follow the
attributes the source reads: `config.log`, `config.mongodb`,
`config.rabbitmq`, `config.http_server`. -/
structure Config where
  log : LogSection
  mongodb : Option (List (String × String))
  rabbitmq : Option (List (String × String))
  http_server : Option HttpSection
  deriving Repr, DecidableEq

/-- The mutable fields `Quant.__init__` creates: `self.loop = None` and
`self.event_center = None`. -/
structure QuantState where
  loop : Option LoopHandle
  event_center : Option Unit
  deriving Repr, DecidableEq

/-- Embeds `Quant.__init__`: both handles start unset (`None`). -/
def QuantState.init : QuantState := ⟨none, none⟩

/-- The errors the bootstrap can raise.  `configError` is the spec's
`ConfigError` (malformed or missing configuration source); `connectionError`
is a database or event-bus transport failure; `typeError` is Python's error
for iterating over `None` (a missing `apis` key); `attributeError` is
Python's error for calling a method on `None` (an unset loop handle). -/
inductive Err where
  | configError
  | connectionError
  | typeError
  | attributeError
  deriving Repr, DecidableEq

/-- The externally visible bootstrap steps, in the order `initialize`
performs them.  Network-touching steps (`dbConnect`, `busConnect`,
`httpBind`) are distinguished so that "no network call is attempted" is a
statement about the trace. -/
inductive Step where
  | getEventLoop
  | loadSettings
  | initLoggerConsole (level : String)
  | initLoggerFile (level path name : String) (clear : Bool) (backup_count : Nat)
  | dbConnect
  | busConnect
  | configInitialize
  | loadApi (module : String)
  | loadMiddleware (dotted : String)
  | httpBind (host : String) (port : Option Nat)
  | registerHeartbeat (delay : ℚ)
  deriving Repr, DecidableEq

/-- Modelled from the spec: outcomes of the external collaborator calls made
during bootstrap.  `loadResult` is what `config.loads` produces
(`quant/config.py` is not under `src/`; per spec §4.1 a malformed or missing
source fails with `ConfigError`, embedded as `none`).  `dbConnectOk` and
`busConnectOk` are the outcomes of the blocking database and event-bus
connects (`quant/utils/mongo.py` and `quant/event.py` are not under `src/`;
per spec §4.3/§7 a failed connect raises `ConnectionError` and is not
retried).  `processLoop` is the process-wide loop handle returned by
`asyncio.get_event_loop()`. -/
structure Env where
  processLoop : LoopHandle
  loadResult : Option Config
  dbConnectOk : Bool
  busConnectOk : Bool
  deriving Repr, DecidableEq

/-- Embeds `Quant._get_event_loop`: `if not self.loop: self.loop =
asyncio.get_event_loop(); return self.loop`.  A loop object is always truthy
and `None` is falsy, so the guard is exactly "is the handle unset". -/
def getEventLoopUpd (env : Env) (st : QuantState) : QuantState × LoopHandle :=
  match st.loop with
  | none => ({ st with loop := some env.processLoop }, env.processLoop)
  | some l => (st, l)

/-- Embeds `Quant._init_logger`: reads the six `config.log` keys with the
source's defaults and configures either the console sink or the file sink.
The logger backend itself (`quant/utils/logger.py`) is external; only the
sink choice and the settings passed to it are recorded as a step. -/
def initLoggerSteps (log : LogSection) : List Step :=
  let console := log.console.getD true
  let level := log.level.getD "DEBUG"
  let path := log.path.getD "/tmp/logs/Quant"
  let name := log.name.getD "quant.log"
  let clear := log.clear.getD false
  let backup_count := log.backup_count.getD 0
  if console then [Step.initLoggerConsole level]
  else [Step.initLoggerFile level path name clear backup_count]

/-- Embeds `Quant._init_db_instance`: `if config.mongodb:
initMongodb(**config.mongodb)`.  The connect outcome comes from the
environment (spec §4.2: the database connect blocks and may fail with
`ConnectionError`, uncaught by the orchestrator). -/
def initDbRes (cfg : Config) (env : Env) : List Step × Option Err :=
  match cfg.mongodb with
  | none => ([], none)
  | some _ =>
    if env.dbConnectOk then ([Step.dbConnect], none)
    else ([Step.dbConnect], some Err.connectionError)

/-- Embeds `Quant._init_event_center`: `if config.rabbitmq:
self.event_center = EventCenter();
self.loop.run_until_complete(self.event_center.connect());
config.initialize()`.  The client is constructed (the handle is assigned)
before the blocking connect; the dependent phase-2 step `config.initialize`
runs only after the connect returns successfully, and a connect failure
propagates (spec §4.3). -/
def initEventCenterRes (cfg : Config) (env : Env) (st : QuantState) :
    List Step × QuantState × Option Err :=
  match cfg.rabbitmq with
  | none => ([], st, none)
  | some _ =>
    let st' : QuantState := { st with event_center := some () }
    if env.busConnectOk then
      ([Step.busConnect, Step.configInitialize], st', none)
    else
      ([Step.busConnect], st', some Err.connectionError)

/-- Embeds `Quant._init_http_server`: returns immediately when
`config.http_server` is absent; otherwise iterates
`config.http_server.get("apis")` (a missing key yields `None`, and iterating
`None` raises `TypeError` before any module import), resolves
`config.http_server.get("middlewares", [])` in listed order, reads
`host` with default `"localhost"` and `port` with no default, and binds the
site at `(host, port)` — the port value is passed to the binding step
exactly as read, `none` included. -/
def initHttpServerRes (cfg : Config) : List Step × Option Err :=
  match cfg.http_server with
  | none => ([], none)
  | some sec =>
    match sec.apis with
    | none => ([], some Err.typeError)
    | some apis =>
      let middlewares := sec.middlewares.getD []
      let host := sec.host.getD "localhost"
      (apis.map Step.loadApi ++ middlewares.map Step.loadMiddleware
        ++ [Step.httpBind host sec.port], none)

/-- Embeds `Quant._do_heartbeat`: `self.loop.call_later(0.5,
heartbeat.ticker)` — a single registration with initial delay 0.5.  The tick
body (`quant/heartbeat.py`) is external. -/
def doHeartbeatSteps : List Step := [Step.registerHeartbeat ((1 : ℚ) / 2)]

/-- The observable outcome of one `initialize` call: the ordered step trace,
the final orchestrator state, and the propagated error if a step raised. -/
structure RunRes where
  trace : List Step
  state : QuantState
  err : Option Err
  deriving Repr, DecidableEq

/-- Embeds `Quant.initialize`: the method body is the straight-line sequence
`self._get_event_loop(); self._load_settings(config_module);
self._init_logger(); self._init_db_instance(); self._init_event_center();
self._init_http_server(); self._do_heartbeat()`, with any exception raised
by a step propagating to the caller and aborting the remaining steps. -/
def runInitialize (env : Env) (st : QuantState) : RunRes :=
  let st1 := (getEventLoopUpd env st).1
  let pre := [Step.getEventLoop, Step.loadSettings]
  match env.loadResult with
  | none => ⟨pre, st1, some Err.configError⟩
  | some cfg =>
    let t3 := pre ++ initLoggerSteps cfg.log
    let db := initDbRes cfg env
    let t4 := t3 ++ db.1
    if db.2.isSome then ⟨t4, st1, db.2⟩
    else
      let ec := initEventCenterRes cfg env st1
      let t5 := t4 ++ ec.1
      if ec.2.2.isSome then ⟨t5, ec.2.1, ec.2.2⟩
      else
        let http := initHttpServerRes cfg
        let t6 := t5 ++ http.1
        if http.2.isSome then ⟨t6, ec.2.1, http.2⟩
        else ⟨t6 ++ doHeartbeatSteps, ec.2.1, none⟩

/-- The whole-process view used by `start`/`stop`: the orchestrator state
plus the run-state of the single process loop (`loopStopped` is the loop's
"has been told to stop" flag, the effect of `loop.stop()`). -/
structure World where
  st : QuantState
  loopStopped : Bool
  deriving Repr, DecidableEq

/-- A fresh process: `Quant()` constructed, nothing else done. -/
def World.init : World := ⟨QuantState.init, false⟩

/-- Embeds `Quant.stop`: `self.loop.stop()`.  When `self.loop` is still
`None` (no `initialize`/`_get_event_loop` call has happened), the attribute
access on `None` raises; otherwise the loop is told to stop.  Telling an
already-stopped loop to stop is modelled from the spec (§4.1: `stop()` is
idempotent; the loop is third-party code): it sets the same flag again. -/
def stop (w : World) : World × Option Err :=
  match w.st.loop with
  | none => (w, some Err.attributeError)
  | some _ => ({ w with loopStopped := true }, none)

/-- The process interrupt signal number (`signal.SIGINT`). -/
def SIGINT : Nat := 2

/-- The observable effects a signal handler can have in this model. -/
inductive Action where
  | printLine (msg : String)
  | stopLoop
  deriving Repr, DecidableEq

/-- Embeds the body of `keyboard_interrupt(s, f)` defined inside
`Quant.start`: print the acknowledgment line naming the signal, then
`self.loop.stop()` — nothing else. -/
def interruptHandlerActions (s : Nat) : List Action :=
  [Action.printLine
      ("KeyboardInterrupt (ID: " ++ toString s ++ ") has been caught. Cleaning up..."),
    Action.stopLoop]

/-- The effect of one handler action on the process world: printing changes
nothing; `stopLoop` sets the loop's stop flag. -/
def applyAction (w : World) : Action → World
  | Action.printLine _ => w
  | Action.stopLoop => { w with loopStopped := true }

/-- Runs a handler's actions in order. -/
def applyActions (w : World) (as : List Action) : World :=
  as.foldl applyAction w

/-- The phases of `Quant.start`, in source order: install the SIGINT
handler, log the start line, enter `loop.run_forever()`. -/
inductive StartStep where
  | installHandler (sig : Nat)
  | logStart
  | runForever
  deriving Repr, DecidableEq

/-- Embeds the order of effects in `Quant.start`: the handler is installed
first, then the start is logged, then control transfers to the loop's run
phase. -/
def startSteps : List StartStep :=
  [StartStep.installHandler SIGINT, StartStep.logStart, StartStep.runForever]

/-- Modelled from the spec: `loop.run_forever()` (third-party scheduler)
"does not return until `stop()` is called" (spec §4.1) — the run phase
returns exactly when the loop's stop flag is set. -/
def runForeverReturns (loopStopped : Bool) : Bool := loopStopped

/-- Phase number of a bootstrap step, following the source order of
`Quant.initialize`: loop acquisition, settings load, logger, database,
event bus (connect and its dependent phase-2 step), HTTP server, heartbeat. -/
def phase : Step → Nat
  | Step.getEventLoop => 0
  | Step.loadSettings => 1
  | Step.initLoggerConsole _ => 2
  | Step.initLoggerFile _ _ _ _ _ => 2
  | Step.dbConnect => 3
  | Step.busConnect => 4
  | Step.configInitialize => 4
  | Step.loadApi _ => 5
  | Step.loadMiddleware _ => 5
  | Step.httpBind _ _ => 5
  | Step.registerHeartbeat _ => 6

/-! ### Helper lemmas about trace segments -/

lemma mem_initLoggerSteps_phase {log : LogSection} {s : Step}
    (h : s ∈ initLoggerSteps log) : phase s = 2 := by
  unfold initLoggerSteps at h
  cases hc : log.console.getD true <;> simp [hc] at h <;> subst h <;> rfl

lemma mem_initDbRes_phase {cfg : Config} {env : Env} {s : Step}
    (h : s ∈ (initDbRes cfg env).1) : phase s = 3 := by
  obtain ⟨lg, mdb, rmq, hs⟩ := cfg
  unfold initDbRes at h
  cases mdb <;> cases hdb : env.dbConnectOk <;>
    simp [hdb] at h <;> subst h <;> rfl

lemma mem_initEventCenterRes_phase {cfg : Config} {env : Env} {st : QuantState}
    {s : Step} (h : s ∈ (initEventCenterRes cfg env st).1) : phase s = 4 := by
  obtain ⟨lg, mdb, rmq, hs⟩ := cfg
  unfold initEventCenterRes at h
  cases rmq <;> cases hb : env.busConnectOk <;> simp [hb] at h
  · subst h; rfl
  · rcases h with h | h <;> subst h <;> rfl

lemma mem_initHttpServerRes_phase {cfg : Config} {s : Step}
    (h : s ∈ (initHttpServerRes cfg).1) : phase s = 5 := by
  obtain ⟨lg, mdb, rmq, hs⟩ := cfg
  unfold initHttpServerRes at h
  rcases hs with _ | ⟨apis?, mws?, host?, port?⟩
  · simp at h
  · rcases apis? with _ | apis
    · simp at h
    · simp only [List.mem_append, List.mem_map, List.mem_singleton] at h
      rcases h with (⟨a, _, rfl⟩ | ⟨m, _, rfl⟩) | rfl <;> rfl

lemma mem_doHeartbeatSteps_phase {s : Step}
    (h : s ∈ doHeartbeatSteps) : phase s = 6 := by
  simp [doHeartbeatSteps] at h; subst h; rfl

lemma count_eq_zero_of_phase {t : List Step} {n : Nat}
    (ht : ∀ s ∈ t, phase s = n) {a : Step} (ha : phase a ≠ n) : t.count a = 0 :=
  List.count_eq_zero.mpr (fun h => ha (ht a h))

/-! ### Evaluation lemmas for `runInitialize`, one per abort point -/

lemma runInitialize_load_fail {env : Env} (st : QuantState)
    (h : env.loadResult = none) :
    runInitialize env st =
      ⟨[Step.getEventLoop, Step.loadSettings], (getEventLoopUpd env st).1,
        some Err.configError⟩ := by
  simp only [runInitialize, h]

lemma runInitialize_db_fail {env : Env} {cfg : Config} (st : QuantState) {e : Err}
    (h : env.loadResult = some cfg)
    (hdb : (initDbRes cfg env).2 = some e) :
    runInitialize env st =
      ⟨[Step.getEventLoop, Step.loadSettings] ++ initLoggerSteps cfg.log
          ++ (initDbRes cfg env).1,
        (getEventLoopUpd env st).1, some e⟩ := by
  simp [runInitialize, h, hdb, List.append_assoc]

lemma runInitialize_bus_fail {env : Env} {cfg : Config} (st : QuantState) {e : Err}
    (h : env.loadResult = some cfg)
    (hdb : (initDbRes cfg env).2 = none)
    (hec : (initEventCenterRes cfg env (getEventLoopUpd env st).1).2.2 = some e) :
    runInitialize env st =
      ⟨[Step.getEventLoop, Step.loadSettings] ++ initLoggerSteps cfg.log
          ++ (initDbRes cfg env).1
          ++ (initEventCenterRes cfg env (getEventLoopUpd env st).1).1,
        (initEventCenterRes cfg env (getEventLoopUpd env st).1).2.1, some e⟩ := by
  simp [runInitialize, h, hdb, hec, List.append_assoc]

lemma runInitialize_http_fail {env : Env} {cfg : Config} (st : QuantState) {e : Err}
    (h : env.loadResult = some cfg)
    (hdb : (initDbRes cfg env).2 = none)
    (hec : (initEventCenterRes cfg env (getEventLoopUpd env st).1).2.2 = none)
    (hhttp : (initHttpServerRes cfg).2 = some e) :
    runInitialize env st =
      ⟨[Step.getEventLoop, Step.loadSettings] ++ initLoggerSteps cfg.log
          ++ (initDbRes cfg env).1
          ++ (initEventCenterRes cfg env (getEventLoopUpd env st).1).1
          ++ (initHttpServerRes cfg).1,
        (initEventCenterRes cfg env (getEventLoopUpd env st).1).2.1, some e⟩ := by
  simp [runInitialize, h, hdb, hec, hhttp, List.append_assoc]

lemma runInitialize_success {env : Env} {cfg : Config} (st : QuantState)
    (h : env.loadResult = some cfg)
    (hdb : (initDbRes cfg env).2 = none)
    (hec : (initEventCenterRes cfg env (getEventLoopUpd env st).1).2.2 = none)
    (hhttp : (initHttpServerRes cfg).2 = none) :
    runInitialize env st =
      ⟨[Step.getEventLoop, Step.loadSettings] ++ initLoggerSteps cfg.log
          ++ (initDbRes cfg env).1
          ++ (initEventCenterRes cfg env (getEventLoopUpd env st).1).1
          ++ (initHttpServerRes cfg).1 ++ doHeartbeatSteps,
        (initEventCenterRes cfg env (getEventLoopUpd env st).1).2.1, none⟩ := by
  simp [runInitialize, h, hdb, hec, hhttp, List.append_assoc]

lemma err_none_split {env : Env} {st : QuantState} {cfg : Config}
    (h : env.loadResult = some cfg)
    (hok : (runInitialize env st).err = none) :
    (initDbRes cfg env).2 = none ∧
      (initEventCenterRes cfg env (getEventLoopUpd env st).1).2.2 = none ∧
      (initHttpServerRes cfg).2 = none := by
  by_cases h1 : (initDbRes cfg env).2 = none
  · by_cases h2 : (initEventCenterRes cfg env (getEventLoopUpd env st).1).2.2 = none
    · by_cases h3 : (initHttpServerRes cfg).2 = none
      · exact ⟨h1, h2, h3⟩
      · obtain ⟨e, he⟩ := Option.ne_none_iff_exists'.mp h3
        rw [runInitialize_http_fail st h h1 h2 he] at hok
        simp at hok
    · obtain ⟨e, he⟩ := Option.ne_none_iff_exists'.mp h2
      rw [runInitialize_bus_fail st h h1 he] at hok
      simp at hok
  · obtain ⟨e, he⟩ := Option.ne_none_iff_exists'.mp h1
    rw [runInitialize_db_fail st h he] at hok
    simp at hok

lemma mem_runInitialize_trace {env : Env} {st : QuantState} {cfg : Config}
    {s : Step} (h : env.loadResult = some cfg)
    (hs : s ∈ (runInitialize env st).trace) :
    s = Step.getEventLoop ∨ s = Step.loadSettings ∨
      s ∈ initLoggerSteps cfg.log ∨ s ∈ (initDbRes cfg env).1 ∨
      s ∈ (initEventCenterRes cfg env (getEventLoopUpd env st).1).1 ∨
      s ∈ (initHttpServerRes cfg).1 ∨ s ∈ doHeartbeatSteps := by
  by_cases h1 : (initDbRes cfg env).2 = none
  · by_cases h2 : (initEventCenterRes cfg env (getEventLoopUpd env st).1).2.2 = none
    · by_cases h3 : (initHttpServerRes cfg).2 = none
      · rw [runInitialize_success st h h1 h2 h3] at hs
        simp only [List.mem_append, List.mem_cons, List.not_mem_nil, or_false] at hs
        tauto
      · obtain ⟨e, he⟩ := Option.ne_none_iff_exists'.mp h3
        rw [runInitialize_http_fail st h h1 h2 he] at hs
        simp only [List.mem_append, List.mem_cons, List.not_mem_nil, or_false] at hs
        tauto
    · obtain ⟨e, he⟩ := Option.ne_none_iff_exists'.mp h2
      rw [runInitialize_bus_fail st h h1 he] at hs
      simp only [List.mem_append, List.mem_cons, List.not_mem_nil, or_false] at hs
      tauto
  · obtain ⟨e, he⟩ := Option.ne_none_iff_exists'.mp h1
    rw [runInitialize_db_fail st h he] at hs
    simp only [List.mem_append, List.mem_cons, List.not_mem_nil, or_false] at hs
    tauto

lemma runInitialize_state_cases {env : Env} (st : QuantState) {cfg : Config}
    (h : env.loadResult = some cfg) :
    (runInitialize env st).state = (getEventLoopUpd env st).1 ∨
      (runInitialize env st).state =
        (initEventCenterRes cfg env (getEventLoopUpd env st).1).2.1 := by
  by_cases h1 : (initDbRes cfg env).2 = none
  · by_cases h2 : (initEventCenterRes cfg env (getEventLoopUpd env st).1).2.2 = none
    · by_cases h3 : (initHttpServerRes cfg).2 = none
      · rw [runInitialize_success st h h1 h2 h3]; right; rfl
      · obtain ⟨e, he⟩ := Option.ne_none_iff_exists'.mp h3
        rw [runInitialize_http_fail st h h1 h2 he]; right; rfl
    · obtain ⟨e, he⟩ := Option.ne_none_iff_exists'.mp h2
      rw [runInitialize_bus_fail st h h1 he]; right; rfl
  · obtain ⟨e, he⟩ := Option.ne_none_iff_exists'.mp h1
    rw [runInitialize_db_fail st h he]; left; rfl

lemma getEventLoopUpd_event_center (env : Env) (st : QuantState) :
    (getEventLoopUpd env st).1.event_center = st.event_center := by
  unfold getEventLoopUpd
  obtain ⟨lo, ec⟩ := st
  cases lo <;> rfl

lemma initEventCenterRes_loop (cfg : Config) (env : Env) (st' : QuantState) :
    (initEventCenterRes cfg env st').2.1.loop = st'.loop := by
  unfold initEventCenterRes
  obtain ⟨lg, mdb, rmq, hs⟩ := cfg
  cases rmq <;> cases hb : env.busConnectOk <;> simp [hb]

lemma initEventCenterRes_rabbitmq_none {cfg : Config} (env : Env)
    (st' : QuantState) (h : cfg.rabbitmq = none) :
    initEventCenterRes cfg env st' = ([], st', none) := by
  unfold initEventCenterRes
  rw [h]

/-! ### Concrete sample configurations used by witnesses -/

/-- A log section with every key absent (all logger defaults apply). -/
def logW : LogSection := ⟨none, none, none, none, none, none⟩

/-- A configuration with all three optional subsystems enabled. -/
def cfgFull : Config :=
  ⟨logW, some [("host", "mongo")], some [("host", "mq")],
    some ⟨some ["strategy.api"], some ["quant.utils.middleware.cors"], none,
      some 8080⟩⟩

/-- An environment where the source loads `cfgFull` and every connect
succeeds. -/
def envFull : Env := ⟨1, some cfgFull, true, true⟩

/-- C9: for every execution of `initialize()` that completes, the heartbeat
is registered on the scheduler exactly once, with fixed initial delay 0.5,
and no heartbeat registration with any other delay ever occurs. -/
theorem C9_heartbeat_single_registration (env : Env) (st : QuantState)
    (cfg : Config) (hload : env.loadResult = some cfg)
    (hok : (runInitialize env st).err = none) :
    (runInitialize env st).trace.count (Step.registerHeartbeat ((1 : ℚ) / 2)) = 1 ∧
      ∀ q : ℚ, Step.registerHeartbeat q ∈ (runInitialize env st).trace →
        q = (1 : ℚ) / 2 := by
  obtain ⟨h1, h2, h3⟩ := err_none_split hload hok
  rw [runInitialize_success st hload h1 h2 h3]
  constructor
  · have hL : (initLoggerSteps cfg.log).count
        (Step.registerHeartbeat ((1 : ℚ) / 2)) = 0 :=
      count_eq_zero_of_phase (fun s hs => mem_initLoggerSteps_phase hs) (by decide)
    have hD : (initDbRes cfg env).1.count
        (Step.registerHeartbeat ((1 : ℚ) / 2)) = 0 :=
      count_eq_zero_of_phase (fun s hs => mem_initDbRes_phase hs) (by decide)
    have hE : (initEventCenterRes cfg env (getEventLoopUpd env st).1).1.count
        (Step.registerHeartbeat ((1 : ℚ) / 2)) = 0 :=
      count_eq_zero_of_phase (fun s hs => mem_initEventCenterRes_phase hs) (by decide)
    have hH : (initHttpServerRes cfg).1.count
        (Step.registerHeartbeat ((1 : ℚ) / 2)) = 0 :=
      count_eq_zero_of_phase (fun s hs => mem_initHttpServerRes_phase hs) (by decide)
    simp only [one_div] at hL hD hE hH
    simp [List.count_append, hL, hD, hE, hH, doHeartbeatSteps, List.count_cons]
  · intro q hq
    simp only [List.mem_append] at hq
    rcases hq with ((((hq | hq) | hq) | hq) | hq) | hq
    · simp at hq
    · have := mem_initLoggerSteps_phase hq
      simp [phase] at this
    · have := mem_initDbRes_phase hq
      simp [phase] at this
    · have := mem_initEventCenterRes_phase hq
      simp [phase] at this
    · have := mem_initHttpServerRes_phase hq
      simp [phase] at this
    · simp [doHeartbeatSteps] at hq
      rw [one_div]
      exact hq

/-- Witness for C9 at the concrete full configuration. -/
theorem C9_heartbeat_single_registration_witness :
    envFull.loadResult = some cfgFull ∧
      (runInitialize envFull QuantState.init).err = none ∧
      ((runInitialize envFull QuantState.init).trace.count
          (Step.registerHeartbeat ((1 : ℚ) / 2)) = 1 ∧
        ∀ q : ℚ,
          Step.registerHeartbeat q ∈ (runInitialize envFull QuantState.init).trace →
            q = (1 : ℚ) / 2) :=
  ⟨rfl, rfl,
    C9_heartbeat_single_registration envFull QuantState.init cfgFull rfl rfl⟩

/-- A configuration with every optional subsystem section absent. -/
def cfgBare : Config := ⟨logW, none, none, none⟩

/-- An environment where the source loads `cfgBare`. -/
def envBare : Env := ⟨1, some cfgBare, true, true⟩

/-- C3: for every configuration lacking a given optional section
(`mongodb`/`rabbitmq`/`http_server`), `initialize()` performs no network call
for that subsystem (no `dbConnect`/`busConnect`/`httpBind` step appears in
the trace), the `event_center` handle stays unchanged when the event-bus
section is absent, and with all three sections absent the whole bootstrap
completes without error. -/
theorem C3_absent_section_disabled (env : Env) (st : QuantState) (cfg : Config)
    (hload : env.loadResult = some cfg) :
    (cfg.mongodb = none → Step.dbConnect ∉ (runInitialize env st).trace) ∧
      (cfg.rabbitmq = none → Step.busConnect ∉ (runInitialize env st).trace) ∧
      (cfg.rabbitmq = none →
        Step.configInitialize ∉ (runInitialize env st).trace) ∧
      (cfg.rabbitmq = none →
        (runInitialize env st).state.event_center = st.event_center) ∧
      (cfg.http_server = none →
        ∀ host port, Step.httpBind host port ∉ (runInitialize env st).trace) ∧
      (cfg.mongodb = none → cfg.rabbitmq = none → cfg.http_server = none →
        (runInitialize env st).err = none) := by
  refine ⟨?_, ?_, ?_, ?_, ?_, ?_⟩
  · intro hm hmem
    rcases mem_runInitialize_trace hload hmem with h | h | h | h | h | h | h
    · exact Step.noConfusion h
    · exact Step.noConfusion h
    · have := mem_initLoggerSteps_phase h; simp [phase] at this
    · unfold initDbRes at h; rw [hm] at h; simp at h
    · have := mem_initEventCenterRes_phase h; simp [phase] at this
    · have := mem_initHttpServerRes_phase h; simp [phase] at this
    · have := mem_doHeartbeatSteps_phase h; simp [phase] at this
  · intro hr hmem
    rcases mem_runInitialize_trace hload hmem with h | h | h | h | h | h | h
    · exact Step.noConfusion h
    · exact Step.noConfusion h
    · have := mem_initLoggerSteps_phase h; simp [phase] at this
    · have := mem_initDbRes_phase h; simp [phase] at this
    · rw [initEventCenterRes_rabbitmq_none env _ hr] at h; simp at h
    · have := mem_initHttpServerRes_phase h; simp [phase] at this
    · have := mem_doHeartbeatSteps_phase h; simp [phase] at this
  · intro hr hmem
    rcases mem_runInitialize_trace hload hmem with h | h | h | h | h | h | h
    · exact Step.noConfusion h
    · exact Step.noConfusion h
    · have := mem_initLoggerSteps_phase h; simp [phase] at this
    · have := mem_initDbRes_phase h; simp [phase] at this
    · rw [initEventCenterRes_rabbitmq_none env _ hr] at h; simp at h
    · have := mem_initHttpServerRes_phase h; simp [phase] at this
    · have := mem_doHeartbeatSteps_phase h; simp [phase] at this
  · intro hr
    rcases runInitialize_state_cases st hload with h | h
    · rw [h]; exact getEventLoopUpd_event_center env st
    · rw [h, initEventCenterRes_rabbitmq_none env _ hr]
      exact getEventLoopUpd_event_center env st
  · intro hh host port hmem
    rcases mem_runInitialize_trace hload hmem with h | h | h | h | h | h | h
    · exact Step.noConfusion h
    · exact Step.noConfusion h
    · have := mem_initLoggerSteps_phase h; simp [phase] at this
    · have := mem_initDbRes_phase h; simp [phase] at this
    · have := mem_initEventCenterRes_phase h; simp [phase] at this
    · unfold initHttpServerRes at h; rw [hh] at h; simp at h
    · have := mem_doHeartbeatSteps_phase h; simp [phase] at this
  · intro hm hr hh
    have h1 : (initDbRes cfg env).2 = none := by
      unfold initDbRes; rw [hm]
    have h2 : (initEventCenterRes cfg env (getEventLoopUpd env st).1).2.2 = none := by
      rw [initEventCenterRes_rabbitmq_none env _ hr]
    have h3 : (initHttpServerRes cfg).2 = none := by
      unfold initHttpServerRes; rw [hh]
    rw [runInitialize_success st hload h1 h2 h3]

/-- Witness for C3 at the concrete bare configuration. -/
theorem C3_absent_section_disabled_witness :
    envBare.loadResult = some cfgBare ∧
      Step.dbConnect ∉ (runInitialize envBare QuantState.init).trace ∧
      Step.busConnect ∉ (runInitialize envBare QuantState.init).trace ∧
      (runInitialize envBare QuantState.init).state.event_center = none ∧
      (runInitialize envBare QuantState.init).err = none :=
  ⟨rfl,
    (C3_absent_section_disabled envBare QuantState.init cfgBare rfl).1 rfl,
    (C3_absent_section_disabled envBare QuantState.init cfgBare rfl).2.1 rfl,
    (C3_absent_section_disabled envBare QuantState.init cfgBare rfl).2.2.2.1 rfl,
    (C3_absent_section_disabled envBare QuantState.init cfgBare rfl).2.2.2.2.2
      rfl rfl rfl⟩

lemma initDbRes_err {cfg : Config} {env : Env} {e : Err}
    (h : (initDbRes cfg env).2 = some e) : e = Err.connectionError := by
  obtain ⟨lg, mdb, rmq, hs⟩ := cfg
  unfold initDbRes at h
  cases mdb <;> cases hdb : env.dbConnectOk <;> simp [hdb] at h
  exact h.symm

lemma initEventCenterRes_bus_ok {cfg : Config} {env : Env} (st' : QuantState)
    {r : List (String × String)} (hr : cfg.rabbitmq = some r)
    (hok : env.busConnectOk = true) :
    initEventCenterRes cfg env st' =
      ([Step.busConnect, Step.configInitialize],
        { st' with event_center := some () }, none) := by
  unfold initEventCenterRes
  rw [hr]
  simp [hok]

lemma initEventCenterRes_bus_fail {cfg : Config} {env : Env} (st' : QuantState)
    {r : List (String × String)} (hr : cfg.rabbitmq = some r)
    (hko : env.busConnectOk = false) :
    initEventCenterRes cfg env st' =
      ([Step.busConnect], { st' with event_center := some () },
        some Err.connectionError) := by
  unfold initEventCenterRes
  rw [hr]
  simp [hko]

/-- An environment where the source loads `cfgFull`, the database connect
succeeds, and the event-bus connect fails. -/
def envBusFail : Env := ⟨1, some cfgFull, true, false⟩

/-- C2: for every configuration containing the event-bus section, the
dependent phase-2 step (`config.initialize`) runs exactly once and
immediately after a successful phase-1 connect (`busConnect` directly
precedes it in the trace); if the phase-1 connect raises, phase 2 never
executes and the `ConnectionError` propagates. -/
theorem C2_phase2_once_after_phase1 (env : Env) (st : QuantState) (cfg : Config)
    (hload : env.loadResult = some cfg) (hbus : cfg.rabbitmq.isSome) :
    ((initDbRes cfg env).2 = none → env.busConnectOk = true →
        (runInitialize env st).trace.count Step.configInitialize = 1 ∧
          [Step.busConnect, Step.configInitialize] <:+:
            (runInitialize env st).trace) ∧
      (env.busConnectOk = false →
        Step.configInitialize ∉ (runInitialize env st).trace ∧
          (runInitialize env st).err = some Err.connectionError) := by
  obtain ⟨r, hr⟩ := Option.isSome_iff_exists.mp hbus
  constructor
  · intro h1 hok
    have hec := initEventCenterRes_bus_ok
      (getEventLoopUpd env st).1 hr hok
    have h2 : (initEventCenterRes cfg env (getEventLoopUpd env st).1).2.2 = none := by
      rw [hec]
    have hcount : ∀ t3 : List Step, (∀ s ∈ t3, phase s = 5 ∨ phase s = 6) →
        ([Step.getEventLoop, Step.loadSettings] ++ initLoggerSteps cfg.log
            ++ (initDbRes cfg env).1
            ++ (initEventCenterRes cfg env (getEventLoopUpd env st).1).1
            ++ t3).count Step.configInitialize = 1 := by
      intro t3 ht3
      have hL : (initLoggerSteps cfg.log).count Step.configInitialize = 0 :=
        count_eq_zero_of_phase (fun s hs => mem_initLoggerSteps_phase hs) (by decide)
      have hD : (initDbRes cfg env).1.count Step.configInitialize = 0 :=
        count_eq_zero_of_phase (fun s hs => mem_initDbRes_phase hs) (by decide)
      have hT : t3.count Step.configInitialize = 0 :=
        List.count_eq_zero.mpr (fun hmem => by
          rcases ht3 _ hmem with h | h <;> simp [phase] at h)
      simp [List.count_append, hL, hD, hT, hec]
    have hinfix : ∀ t3 : List Step,
        [Step.busConnect, Step.configInitialize] <:+:
          ([Step.getEventLoop, Step.loadSettings] ++ initLoggerSteps cfg.log
            ++ (initDbRes cfg env).1
            ++ (initEventCenterRes cfg env (getEventLoopUpd env st).1).1
            ++ t3) := by
      intro t3
      refine ⟨[Step.getEventLoop, Step.loadSettings] ++ initLoggerSteps cfg.log
        ++ (initDbRes cfg env).1, t3, ?_⟩
      rw [hec]
    by_cases h3 : (initHttpServerRes cfg).2 = none
    · rw [runInitialize_success st hload h1 h2 h3]
      refine ⟨?_, ?_⟩
      · have := hcount ((initHttpServerRes cfg).1 ++ doHeartbeatSteps)
          (fun s hs => by
            rcases List.mem_append.mp hs with h | h
            · exact Or.inl (mem_initHttpServerRes_phase h)
            · exact Or.inr (mem_doHeartbeatSteps_phase h))
        simpa [List.append_assoc] using this
      · have := hinfix ((initHttpServerRes cfg).1 ++ doHeartbeatSteps)
        simpa [List.append_assoc] using this
    · obtain ⟨e, he⟩ := Option.ne_none_iff_exists'.mp h3
      rw [runInitialize_http_fail st hload h1 h2 he]
      refine ⟨?_, ?_⟩
      · have := hcount (initHttpServerRes cfg).1
          (fun s hs => Or.inl (mem_initHttpServerRes_phase hs))
        simpa [List.append_assoc] using this
      · have := hinfix (initHttpServerRes cfg).1
        simpa [List.append_assoc] using this
  · intro hko
    by_cases h1 : (initDbRes cfg env).2 = none
    · have hec := initEventCenterRes_bus_fail
        (getEventLoopUpd env st).1 hr hko
      have h2 : (initEventCenterRes cfg env (getEventLoopUpd env st).1).2.2 =
          some Err.connectionError := by rw [hec]
      rw [runInitialize_bus_fail st hload h1 h2]
      refine ⟨?_, rfl⟩
      intro hmem
      simp only [List.mem_append] at hmem
      rcases hmem with ((hq | hq) | hq) | hq
      · simp at hq
      · have := mem_initLoggerSteps_phase hq; simp [phase] at this
      · have := mem_initDbRes_phase hq; simp [phase] at this
      · rw [hec] at hq; simp at hq
    · obtain ⟨e, he⟩ := Option.ne_none_iff_exists'.mp h1
      have he' := initDbRes_err he
      subst he'
      rw [runInitialize_db_fail st hload he]
      refine ⟨?_, rfl⟩
      intro hmem
      simp only [List.mem_append] at hmem
      rcases hmem with (hq | hq) | hq
      · simp at hq
      · have := mem_initLoggerSteps_phase hq; simp [phase] at this
      · have := mem_initDbRes_phase hq; simp [phase] at this

/-- Witness for C2: with the full configuration phase 2 runs exactly once
when the connect succeeds, and never when the connect fails. -/
theorem C2_phase2_once_after_phase1_witness :
    (runInitialize envFull QuantState.init).trace.count Step.configInitialize = 1 ∧
      Step.configInitialize ∉ (runInitialize envBusFail QuantState.init).trace ∧
      (runInitialize envBusFail QuantState.init).err = some Err.connectionError :=
  ⟨((C2_phase2_once_after_phase1 envFull QuantState.init cfgFull rfl rfl).1
      rfl rfl).1,
    ((C2_phase2_once_after_phase1 envBusFail QuantState.init cfgFull rfl rfl).2
      rfl).1,
    ((C2_phase2_once_after_phase1 envBusFail QuantState.init cfgFull rfl rfl).2
      rfl).2⟩

/-- An environment where the source loads `cfgFull` and the database connect
fails. -/
def envDbFail : Env := ⟨1, some cfgFull, false, true⟩

/-- C5: a configured optional subsystem (database or event bus) that fails to
connect aborts startup: the `ConnectionError` propagates out of
`initialize()` (it is the run's error) and no later bootstrap step runs — on
a database failure nothing past phase 3 appears in the trace, on an event-bus
failure nothing past phase 4 (in particular no HTTP step and no heartbeat
registration). -/
theorem C5_connect_failure_aborts (env : Env) (st : QuantState) (cfg : Config)
    (hload : env.loadResult = some cfg) :
    (cfg.mongodb.isSome → env.dbConnectOk = false →
        (runInitialize env st).err = some Err.connectionError ∧
          ∀ s ∈ (runInitialize env st).trace, phase s ≤ 3) ∧
      (cfg.rabbitmq.isSome → env.busConnectOk = false →
        (runInitialize env st).err = some Err.connectionError ∧
          ∀ s ∈ (runInitialize env st).trace, phase s ≤ 4) := by
  constructor
  · intro hm hko
    obtain ⟨m, hmm⟩ := Option.isSome_iff_exists.mp hm
    have hdb : (initDbRes cfg env).2 = some Err.connectionError := by
      unfold initDbRes; rw [hmm]; simp [hko]
    rw [runInitialize_db_fail st hload hdb]
    refine ⟨rfl, ?_⟩
    intro s hs
    simp only [List.mem_append, List.mem_cons, List.not_mem_nil, or_false] at hs
    rcases hs with ((rfl | rfl) | hq) | hq
    · decide
    · decide
    · rw [mem_initLoggerSteps_phase hq]; decide
    · rw [mem_initDbRes_phase hq]
  · intro hr hko
    obtain ⟨r, hrr⟩ := Option.isSome_iff_exists.mp hr
    by_cases h1 : (initDbRes cfg env).2 = none
    · have hec := initEventCenterRes_bus_fail
        (getEventLoopUpd env st).1 hrr hko
      have h2 : (initEventCenterRes cfg env (getEventLoopUpd env st).1).2.2 =
          some Err.connectionError := by rw [hec]
      rw [runInitialize_bus_fail st hload h1 h2]
      refine ⟨rfl, ?_⟩
      intro s hs
      simp only [List.mem_append, List.mem_cons, List.not_mem_nil, or_false] at hs
      rcases hs with (((rfl | rfl) | hq) | hq) | hq
      · decide
      · decide
      · rw [mem_initLoggerSteps_phase hq]; decide
      · rw [mem_initDbRes_phase hq]; decide
      · rw [mem_initEventCenterRes_phase hq]
    · obtain ⟨e, he⟩ := Option.ne_none_iff_exists'.mp h1
      have he' := initDbRes_err he
      subst he'
      rw [runInitialize_db_fail st hload he]
      refine ⟨rfl, ?_⟩
      intro s hs
      simp only [List.mem_append, List.mem_cons, List.not_mem_nil, or_false] at hs
      rcases hs with ((rfl | rfl) | hq) | hq
      · decide
      · decide
      · rw [mem_initLoggerSteps_phase hq]; decide
      · rw [mem_initDbRes_phase hq]; decide

/-- Witness for C5 at a failing database connect and a failing event-bus
connect on the full configuration. -/
theorem C5_connect_failure_aborts_witness :
    ((runInitialize envDbFail QuantState.init).err = some Err.connectionError ∧
        ∀ s ∈ (runInitialize envDbFail QuantState.init).trace, phase s ≤ 3) ∧
      ((runInitialize envBusFail QuantState.init).err = some Err.connectionError ∧
        ∀ s ∈ (runInitialize envBusFail QuantState.init).trace, phase s ≤ 4) :=
  ⟨(C5_connect_failure_aborts envDbFail QuantState.init cfgFull rfl).1 rfl rfl,
    (C5_connect_failure_aborts envBusFail QuantState.init cfgFull rfl).2 rfl rfl⟩

/-! ### Phase ordering of the bootstrap trace -/

lemma pairwise_phase_of_const {t : List Step} {n : Nat}
    (h : ∀ s ∈ t, phase s = n) :
    t.Pairwise (fun a b => phase a ≤ phase b) := by
  induction t with
  | nil => exact List.Pairwise.nil
  | cons a t ih =>
    refine List.Pairwise.cons ?_ (ih (fun s hs => h s (List.mem_cons_of_mem a hs)))
    intro b hb
    rw [h a (List.mem_cons_self a t), h b (List.mem_cons_of_mem a hb)]

lemma phase_le_one_of_mem_pre {a : Step}
    (ha : a ∈ [Step.getEventLoop, Step.loadSettings]) : phase a ≤ 1 := by
  simp only [List.mem_cons, List.not_mem_nil, or_false] at ha
  rcases ha with rfl | rfl <;> decide

lemma pairwise_phase_trace (cfg : Config) (env : Env) (X : List Step)
    (hX : X.Pairwise (fun a b => phase a ≤ phase b))
    (hXlow : ∀ s ∈ X, 4 ≤ phase s) :
    ([Step.getEventLoop, Step.loadSettings] ++ initLoggerSteps cfg.log
        ++ (initDbRes cfg env).1 ++ X).Pairwise
      (fun a b => phase a ≤ phase b) := by
  have hA1L : ([Step.getEventLoop, Step.loadSettings]
      ++ initLoggerSteps cfg.log).Pairwise (fun a b => phase a ≤ phase b) := by
    refine List.pairwise_append.mpr
      ⟨by decide, pairwise_phase_of_const (fun s hs => mem_initLoggerSteps_phase hs), ?_⟩
    intro a ha b hb
    rw [mem_initLoggerSteps_phase hb]
    exact le_trans (phase_le_one_of_mem_pre ha) (by decide)
  have hA1LD : ([Step.getEventLoop, Step.loadSettings]
      ++ initLoggerSteps cfg.log ++ (initDbRes cfg env).1).Pairwise
      (fun a b => phase a ≤ phase b) := by
    refine List.pairwise_append.mpr
      ⟨hA1L, pairwise_phase_of_const (fun s hs => mem_initDbRes_phase hs), ?_⟩
    intro a ha b hb
    rw [mem_initDbRes_phase hb]
    rcases List.mem_append.mp ha with ha | ha
    · exact le_trans (phase_le_one_of_mem_pre ha) (by decide)
    · rw [mem_initLoggerSteps_phase ha]; decide
  refine List.pairwise_append.mpr ⟨hA1LD, hX, ?_⟩
  intro a ha b hb
  refine le_trans ?_ (hXlow b hb)
  rcases List.mem_append.mp ha with ha | ha
  · rcases List.mem_append.mp ha with ha | ha
    · exact le_trans (phase_le_one_of_mem_pre ha) (by decide)
    · rw [mem_initLoggerSteps_phase ha]; decide
  · rw [mem_initDbRes_phase ha]; decide

lemma runInitialize_trace_pairwise (env : Env) (st : QuantState) :
    (runInitialize env st).trace.Pairwise (fun a b => phase a ≤ phase b) := by
  rcases hload : env.loadResult with _ | cfg
  · rw [runInitialize_load_fail st hload]
    show List.Pairwise _ [Step.getEventLoop, Step.loadSettings]
    decide
  · have hXec : ∀ s ∈ (initEventCenterRes cfg env (getEventLoopUpd env st).1).1,
        4 ≤ phase s := fun s hs => le_of_eq (mem_initEventCenterRes_phase hs).symm
    have hPec : (initEventCenterRes cfg env (getEventLoopUpd env st).1).1.Pairwise
        (fun a b => phase a ≤ phase b) :=
      pairwise_phase_of_const (fun s hs => mem_initEventCenterRes_phase hs)
    have hPhttp : (initHttpServerRes cfg).1.Pairwise
        (fun a b => phase a ≤ phase b) :=
      pairwise_phase_of_const (fun s hs => mem_initHttpServerRes_phase hs)
    by_cases h1 : (initDbRes cfg env).2 = none
    · by_cases h2 : (initEventCenterRes cfg env (getEventLoopUpd env st).1).2.2 = none
      · by_cases h3 : (initHttpServerRes cfg).2 = none
        · rw [runInitialize_success st hload h1 h2 h3]
          have hHB : ((initHttpServerRes cfg).1 ++ doHeartbeatSteps).Pairwise
              (fun a b => phase a ≤ phase b) := by
            refine List.pairwise_append.mpr
              ⟨hPhttp,
                pairwise_phase_of_const (fun s hs => mem_doHeartbeatSteps_phase hs), ?_⟩
            intro a ha b hb
            rw [mem_initHttpServerRes_phase ha, mem_doHeartbeatSteps_phase hb]
            decide
          have hEHB : ((initEventCenterRes cfg env (getEventLoopUpd env st).1).1
              ++ ((initHttpServerRes cfg).1 ++ doHeartbeatSteps)).Pairwise
              (fun a b => phase a ≤ phase b) := by
            refine List.pairwise_append.mpr ⟨hPec, hHB, ?_⟩
            intro a ha b hb
            rw [mem_initEventCenterRes_phase ha]
            rcases List.mem_append.mp hb with hb | hb
            · rw [mem_initHttpServerRes_phase hb]; decide
            · rw [mem_doHeartbeatSteps_phase hb]; decide
          have := pairwise_phase_trace cfg env
            ((initEventCenterRes cfg env (getEventLoopUpd env st).1).1
              ++ ((initHttpServerRes cfg).1 ++ doHeartbeatSteps)) hEHB
            (fun s hs => by
              rcases List.mem_append.mp hs with hb | hb
              · exact hXec s hb
              · rcases List.mem_append.mp hb with hb | hb
                · rw [mem_initHttpServerRes_phase hb]; decide
                · rw [mem_doHeartbeatSteps_phase hb]; decide)
          simpa [List.append_assoc] using this
        · obtain ⟨e, he⟩ := Option.ne_none_iff_exists'.mp h3
          rw [runInitialize_http_fail st hload h1 h2 he]
          have hEH : ((initEventCenterRes cfg env (getEventLoopUpd env st).1).1
              ++ (initHttpServerRes cfg).1).Pairwise
              (fun a b => phase a ≤ phase b) := by
            refine List.pairwise_append.mpr ⟨hPec, hPhttp, ?_⟩
            intro a ha b hb
            rw [mem_initEventCenterRes_phase ha, mem_initHttpServerRes_phase hb]
            decide
          have := pairwise_phase_trace cfg env
            ((initEventCenterRes cfg env (getEventLoopUpd env st).1).1
              ++ (initHttpServerRes cfg).1) hEH
            (fun s hs => by
              rcases List.mem_append.mp hs with hb | hb
              · exact hXec s hb
              · rw [mem_initHttpServerRes_phase hb]; decide)
          simpa [List.append_assoc] using this
      · obtain ⟨e, he⟩ := Option.ne_none_iff_exists'.mp h2
        rw [runInitialize_bus_fail st hload h1 he]
        have := pairwise_phase_trace cfg env
          (initEventCenterRes cfg env (getEventLoopUpd env st).1).1 hPec hXec
        simpa [List.append_assoc] using this
    · obtain ⟨e, he⟩ := Option.ne_none_iff_exists'.mp h1
      rw [runInitialize_db_fail st hload he]
      have := pairwise_phase_trace cfg env [] List.Pairwise.nil
        (fun s hs => absurd hs (List.not_mem_nil s))
      simpa [List.append_assoc] using this

lemma runInitialize_trace_shape {env : Env} (st : QuantState) {cfg : Config}
    (h : env.loadResult = some cfg) :
    ∃ T, (runInitialize env st).trace =
      Step.getEventLoop :: Step.loadSettings :: T := by
  by_cases h1 : (initDbRes cfg env).2 = none
  · by_cases h2 : (initEventCenterRes cfg env (getEventLoopUpd env st).1).2.2 = none
    · by_cases h3 : (initHttpServerRes cfg).2 = none
      · rw [runInitialize_success st h h1 h2 h3]
        exact ⟨initLoggerSteps cfg.log ++ ((initDbRes cfg env).1
          ++ ((initEventCenterRes cfg env (getEventLoopUpd env st).1).1
            ++ ((initHttpServerRes cfg).1 ++ doHeartbeatSteps))),
          by simp [List.append_assoc]⟩
      · obtain ⟨e, he⟩ := Option.ne_none_iff_exists'.mp h3
        rw [runInitialize_http_fail st h h1 h2 he]
        exact ⟨initLoggerSteps cfg.log ++ ((initDbRes cfg env).1
          ++ ((initEventCenterRes cfg env (getEventLoopUpd env st).1).1
            ++ (initHttpServerRes cfg).1)),
          by simp [List.append_assoc]⟩
    · obtain ⟨e, he⟩ := Option.ne_none_iff_exists'.mp h2
      rw [runInitialize_bus_fail st h h1 he]
      exact ⟨initLoggerSteps cfg.log ++ ((initDbRes cfg env).1
        ++ (initEventCenterRes cfg env (getEventLoopUpd env st).1).1),
        by simp [List.append_assoc]⟩
  · obtain ⟨e, he⟩ := Option.ne_none_iff_exists'.mp h1
    rw [runInitialize_db_fail st h he]
    exact ⟨initLoggerSteps cfg.log ++ (initDbRes cfg env).1,
      by simp [List.append_assoc]⟩

/-- Counterexample to C1 as stated: at the full configuration, the first
step of `initialize()` is the scheduler-handle acquisition and the
configuration load is only the second step, so the configuration is not
loaded before the six bootstrap steps begin. -/
theorem C1_counterexample_scheduler_before_load :
    (runInitialize envFull QuantState.init).trace.indexOf Step.getEventLoop = 0 ∧
      (runInitialize envFull QuantState.init).trace.indexOf Step.loadSettings = 1 ∧
      ¬ ((runInitialize envFull QuantState.init).trace.indexOf Step.loadSettings <
          (runInitialize envFull QuantState.init).trace.indexOf Step.getEventLoop) := by
  refine ⟨rfl, rfl, ?_⟩
  decide

/-- C1 (amended): every call to `initialize()` acquires/creates the
scheduler handle first, loads the configuration second (failing with
`ConfigError` if the source is malformed or missing, in which case nothing
further runs), and then executes the remaining bootstrap steps — logging
sinks, conditional database connect, conditional event-bus connect with its
dependent post-connect step, conditional HTTP assembly/bind, heartbeat
registration — in strict phase order with no step reordered or
interleaved. -/
theorem C1_bootstrap_order (env : Env) (st : QuantState) :
    (runInitialize env st).trace.Pairwise (fun a b => phase a ≤ phase b) ∧
      (runInitialize env st).trace.head? = some Step.getEventLoop ∧
      (runInitialize env st).trace[1]? = some Step.loadSettings ∧
      (env.loadResult = none →
        (runInitialize env st).err = some Err.configError ∧
          (runInitialize env st).trace = [Step.getEventLoop, Step.loadSettings]) := by
  refine ⟨runInitialize_trace_pairwise env st, ?_, ?_, ?_⟩
  · rcases hload : env.loadResult with _ | cfg
    · rw [runInitialize_load_fail st hload]
      rfl
    · rcases runInitialize_trace_shape st hload with ⟨T, hT⟩
      rw [hT]
      rfl
  · rcases hload : env.loadResult with _ | cfg
    · rw [runInitialize_load_fail st hload]
      simp
    · rcases runInitialize_trace_shape st hload with ⟨T, hT⟩
      rw [hT]
      simp
  · intro hnone
    rw [runInitialize_load_fail st hnone]
    exact ⟨rfl, rfl⟩

/-- An environment whose configuration source is malformed/missing. -/
def envNoLoad : Env := ⟨1, none, true, true⟩

/-- Witness for the amended C1: the ordering facts at the full
configuration, and the `ConfigError` outcome at a broken source. -/
theorem C1_bootstrap_order_witness :
    (runInitialize envFull QuantState.init).trace.head? = some Step.getEventLoop ∧
      (runInitialize envFull QuantState.init).trace[1]? = some Step.loadSettings ∧
      (runInitialize envNoLoad QuantState.init).err = some Err.configError ∧
      (runInitialize envNoLoad QuantState.init).trace =
        [Step.getEventLoop, Step.loadSettings] :=
  ⟨(C1_bootstrap_order envFull QuantState.init).2.1,
    (C1_bootstrap_order envFull QuantState.init).2.2.1,
    ((C1_bootstrap_order envNoLoad QuantState.init).2.2.2 rfl).1,
    ((C1_bootstrap_order envNoLoad QuantState.init).2.2.2 rfl).2⟩

/-! ### C4: host default and unchecked port -/

/-- A configuration whose `http_server` section omits both `host` and
`port` (with an empty `apis` list so the API loop is vacuous). -/
def cfgNoPort : Config := ⟨logW, none, none, some ⟨some [], some [], none, none⟩⟩

/-- An environment loading `cfgNoPort`. -/
def envNoPort : Env := ⟨1, some cfgNoPort, true, true⟩

/-- A configuration whose `http_server` section omits `host` but gives a
`port`. -/
def cfgHostDefault : Config :=
  ⟨logW, none, none, some ⟨some ["strategy.api"], none, none, some 9102⟩⟩

/-- An environment loading `cfgHostDefault`. -/
def envHostDefault : Env := ⟨1, some cfgHostDefault, true, true⟩

/-- Counterexample to C4 as stated: with the `port` key omitted from the
`http_server` section, `initialize()` does not abort — it completes with no
error and the bind step receives an unset port (`none`), because
`config.http_server.get("port")` silently yields `None` and no validation
exists. -/
theorem C4_counterexample_missing_port_not_fatal :
    (runInitialize envNoPort QuantState.init).err = none ∧
      Step.httpBind "localhost" none ∈
        (runInitialize envNoPort QuantState.init).trace := by
  refine ⟨rfl, ?_⟩
  decide

/-- C4 (amended): when the `http_server` section is present (and its
mandatory `apis` key is present), an omitted `host` defaults to the loopback
name `"localhost"`, but an omitted `port` is NOT a fatal configuration
error: the port is read with no default and passed to the bind step exactly
as configured (`none` when absent), and bootstrap completes. -/
theorem C4_host_default_port_unchecked (env : Env) (st : QuantState)
    (cfg : Config) (sec : HttpSection) (as : List String)
    (hload : env.loadResult = some cfg)
    (hsec : cfg.http_server = some sec)
    (happ : sec.apis = some as)
    (h1 : (initDbRes cfg env).2 = none)
    (h2 : (initEventCenterRes cfg env (getEventLoopUpd env st).1).2.2 = none) :
    (runInitialize env st).err = none ∧
      Step.httpBind (sec.host.getD "localhost") sec.port ∈
        (runInitialize env st).trace ∧
      (sec.port = none → sec.host = none →
        Step.httpBind "localhost" none ∈ (runInitialize env st).trace) := by
  have h3 : (initHttpServerRes cfg).2 = none := by
    simp [initHttpServerRes, hsec, happ]
  have hbind : Step.httpBind (sec.host.getD "localhost") sec.port ∈
      (initHttpServerRes cfg).1 := by
    simp [initHttpServerRes, hsec, happ]
  rw [runInitialize_success st hload h1 h2 h3]
  refine ⟨rfl, ?_, ?_⟩
  · exact List.mem_append_left doHeartbeatSteps (List.mem_append_right _ hbind)
  · intro hp hh
    have h := List.mem_append_left doHeartbeatSteps
      (List.mem_append_right
        ([Step.getEventLoop, Step.loadSettings] ++ initLoggerSteps cfg.log
          ++ (initDbRes cfg env).1
          ++ (initEventCenterRes cfg env (getEventLoopUpd env st).1).1) hbind)
    rw [hp, hh] at h
    simpa using h

/-- Witness for the amended C4: omitted host binds `"localhost"` on the
configured port 9102. -/
theorem C4_host_default_port_unchecked_witness :
    (runInitialize envHostDefault QuantState.init).err = none ∧
      Step.httpBind "localhost" (some 9102) ∈
        (runInitialize envHostDefault QuantState.init).trace :=
  ⟨(C4_host_default_port_unchecked envHostDefault QuantState.init
      cfgHostDefault ⟨some ["strategy.api"], none, none, some 9102⟩
      ["strategy.api"] rfl rfl rfl rfl rfl).1,
    (C4_host_default_port_unchecked envHostDefault QuantState.init
      cfgHostDefault ⟨some ["strategy.api"], none, none, some 9102⟩
      ["strategy.api"] rfl rfl rfl rfl rfl).2.1⟩

/-! ### C6: stop before start, and idempotency -/

/-- Counterexample to C6 as stated: on a fresh `Quant()` (no `initialize()`
or `start()` yet), `stop()` is not a safe no-op — `self.loop` is `None`, so
`self.loop.stop()` raises an `AttributeError`. -/
theorem C6_counterexample_stop_before_init :
    stop World.init = (World.init, some Err.attributeError) := rfl

/-- C6 (amended): once the loop handle exists (after `initialize()` has run
`_get_event_loop`), `stop()` raises no exception, and it is idempotent: a
second `stop()` on the already-stopped scheduler returns the same state and
no error.  Before the loop handle exists, `stop()` raises `AttributeError`
(see the counterexample). -/
theorem C6_stop_idempotent_after_loop (w : World) (l : LoopHandle)
    (h : w.st.loop = some l) :
    (stop w).2 = none ∧ (stop w).1.loopStopped = true ∧
      stop (stop w).1 = ((stop w).1, none) := by
  obtain ⟨⟨lo, ec⟩, ls⟩ := w
  simp only [QuantState.loop] at h
  subst h
  simp [stop]

/-- A process whose loop handle is set and whose loop is running. -/
def worldStarted : World := ⟨⟨some 1, none⟩, false⟩

/-- Witness for the amended C6 at a started world. -/
theorem C6_stop_idempotent_after_loop_witness :
    worldStarted.st.loop = some 1 ∧
      ((stop worldStarted).2 = none ∧ (stop worldStarted).1.loopStopped = true ∧
        stop (stop worldStarted).1 = ((stop worldStarted).1, none)) :=
  ⟨rfl, C6_stop_idempotent_after_loop worldStarted 1 rfl⟩

/-! ### C7: the interrupt handler installed by `start` -/

/-- C7: `start()` installs a handler for SIGINT whose effect is exactly to
print the one-line acknowledgment naming the signal and stop the scheduler
(no other state change), the installation precedes the transfer of control
to the run phase, and the run phase (modelled from the spec) returns exactly
when the loop has been told to stop. -/
theorem C7_start_installs_interrupt_handler (s : Nat) (w : World) :
    startSteps.indexOf (StartStep.installHandler SIGINT) <
        startSteps.indexOf StartStep.runForever ∧
      interruptHandlerActions s =
        [Action.printLine ("KeyboardInterrupt (ID: " ++ toString s ++
            ") has been caught. Cleaning up..."), Action.stopLoop] ∧
      applyActions w (interruptHandlerActions s) = { w with loopStopped := true } ∧
      ∀ b : Bool, runForeverReturns b = b := by
  refine ⟨by decide, rfl, ?_, fun b => rfl⟩
  simp [applyActions, interruptHandlerActions, applyAction]

/-! ### C8: the loop handle is a lazy singleton -/

lemma runInitialize_state_loop (env : Env) (st : QuantState) :
    (runInitialize env st).state.loop = (getEventLoopUpd env st).1.loop := by
  rcases hload : env.loadResult with _ | cfg
  · rw [runInitialize_load_fail st hload]
  · rcases runInitialize_state_cases st hload with h | h
    · rw [h]
    · rw [h, initEventCenterRes_loop]

/-- C8: the scheduler handle is a lazy singleton — `_get_event_loop` creates
it on first access (when unset it becomes the process loop), returns the
already-set handle unchanged on every later access, and no orchestrator
operation (`initialize`, `stop`) ever replaces a set handle. -/
theorem C8_loop_lazy_singleton (env : Env) (st : QuantState) (l : LoopHandle) :
    (st.loop = none →
        getEventLoopUpd env st =
          ({ st with loop := some env.processLoop }, env.processLoop)) ∧
      (st.loop = some l → getEventLoopUpd env st = (st, l)) ∧
      (st.loop = some l → (runInitialize env st).state.loop = some l) ∧
      (∀ w : World, (stop w).1.st = w.st) := by
  refine ⟨?_, ?_, ?_, ?_⟩
  · intro h
    unfold getEventLoopUpd
    rw [h]
  · intro h
    unfold getEventLoopUpd
    rw [h]
  · intro h
    rw [runInitialize_state_loop]
    unfold getEventLoopUpd
    rw [h]
    exact h
  · intro w
    unfold stop
    rcases hw : w.st.loop with _ | l'
    · rfl
    · rfl

/-- A state whose loop handle was pre-set to 7. -/
def stWithLoop : QuantState := ⟨some 7, none⟩

/-- Witness for C8: first access creates the handle; later accesses return
the set handle unchanged, and `initialize` preserves it. -/
theorem C8_loop_lazy_singleton_witness :
    QuantState.init.loop = none ∧
      getEventLoopUpd envFull QuantState.init =
        (⟨some 1, none⟩, 1) ∧
      stWithLoop.loop = some 7 ∧
      getEventLoopUpd envFull stWithLoop = (stWithLoop, 7) ∧
      (runInitialize envFull stWithLoop).state.loop = some 7 :=
  ⟨rfl,
    (C8_loop_lazy_singleton envFull QuantState.init 0).1 rfl,
    rfl,
    (C8_loop_lazy_singleton envFull stWithLoop 7).2.1 rfl,
    (C8_loop_lazy_singleton envFull stWithLoop 7).2.2.1 rfl⟩

/-! ### C10: `apis` is mandatory, `middlewares` defaults to empty -/

lemma initDbRes_ok {cfg : Config} {env : Env} (h : env.dbConnectOk = true) :
    (initDbRes cfg env).2 = none := by
  obtain ⟨lg, mdb, rmq, hs⟩ := cfg
  unfold initDbRes
  cases mdb <;> simp [h]

lemma initEventCenterRes_ok {cfg : Config} {env : Env} (st' : QuantState)
    (h : env.busConnectOk = true) :
    (initEventCenterRes cfg env st').2.2 = none := by
  obtain ⟨lg, mdb, rmq, hs⟩ := cfg
  unfold initEventCenterRes
  cases rmq <;> simp [h]

/-- A configuration whose `http_server` section has `apis` but omits
`middlewares`. -/
def cfgNoMw : Config :=
  ⟨logW, none, none, some ⟨some ["strategy.api"], none, none, some 8080⟩⟩

/-- An environment loading `cfgNoMw`. -/
def envNoMw : Env := ⟨1, some cfgNoMw, true, true⟩

/-- A configuration whose `http_server` section is present but omits the
`apis` key. -/
def cfgNoApis : Config := ⟨logW, none, none, some ⟨none, some [], none, some 8080⟩⟩

/-- An environment loading `cfgNoApis`. -/
def envNoApis : Env := ⟨1, some cfgNoApis, true, true⟩

/-- C10: when the `http_server` section is present, the `apis` key is
mandatory — reading it with no default and iterating the resulting `None`
makes `initialize()` fail with a `TypeError` — whereas a missing
`middlewares` key harmlessly defaults to the empty chain: bootstrap
completes with no middleware-resolution step in the trace. -/
theorem C10_apis_mandatory_middlewares_default (env : Env) (st : QuantState)
    (cfg : Config) (sec : HttpSection)
    (hload : env.loadResult = some cfg)
    (hsec : cfg.http_server = some sec)
    (hdbok : env.dbConnectOk = true)
    (hbusok : env.busConnectOk = true) :
    (sec.apis = none → (runInitialize env st).err = some Err.typeError) ∧
      (∀ as : List String, sec.apis = some as → sec.middlewares = none →
        (runInitialize env st).err = none ∧
          ∀ m, Step.loadMiddleware m ∉ (runInitialize env st).trace) := by
  have h1 : (initDbRes cfg env).2 = none := initDbRes_ok hdbok
  have h2 : (initEventCenterRes cfg env (getEventLoopUpd env st).1).2.2 = none :=
    initEventCenterRes_ok _ hbusok
  constructor
  · intro ha
    have h3 : (initHttpServerRes cfg).2 = some Err.typeError := by
      simp [initHttpServerRes, hsec, ha]
    rw [runInitialize_http_fail st hload h1 h2 h3]
  · intro as has hmw
    have h3 : (initHttpServerRes cfg).2 = none := by
      simp [initHttpServerRes, hsec, has]
    refine ⟨by rw [runInitialize_success st hload h1 h2 h3], ?_⟩
    intro m hmem
    rcases mem_runInitialize_trace hload hmem with h | h | h | h | h | h | h
    · exact Step.noConfusion h
    · exact Step.noConfusion h
    · have := mem_initLoggerSteps_phase h; simp [phase] at this
    · have := mem_initDbRes_phase h; simp [phase] at this
    · have := mem_initEventCenterRes_phase h; simp [phase] at this
    · simp [initHttpServerRes, hsec, has, hmw] at h
    · have := mem_doHeartbeatSteps_phase h; simp [phase] at this

/-- Witness for C10: a missing `apis` key aborts with `TypeError`; a missing
`middlewares` key yields a clean bootstrap with no middleware step. -/
theorem C10_apis_mandatory_middlewares_default_witness :
    (runInitialize envNoApis QuantState.init).err = some Err.typeError ∧
      (runInitialize envNoMw QuantState.init).err = none ∧
      ∀ m, Step.loadMiddleware m ∉ (runInitialize envNoMw QuantState.init).trace :=
  ⟨(C10_apis_mandatory_middlewares_default envNoApis QuantState.init cfgNoApis
      ⟨none, some [], none, some 8080⟩ rfl rfl rfl rfl).1 rfl,
    ((C10_apis_mandatory_middlewares_default envNoMw QuantState.init cfgNoMw
      ⟨some ["strategy.api"], none, none, some 8080⟩ rfl rfl rfl rfl).2
      ["strategy.api"] rfl rfl).1,
    ((C10_apis_mandatory_middlewares_default envNoMw QuantState.init cfgNoMw
      ⟨some ["strategy.api"], none, none, some 8080⟩ rfl rfl rfl rfl).2
      ["strategy.api"] rfl rfl).2⟩

end ThenextQuant
